import Mathlib

/-!
Shallow embedding of the StoryWeaver content-assembly and document-rendering
pipeline (`src/models/pdf_generator.py`, `src/models/database.py`,
`src/models/ai_service.py`), together with theorems settling the frozen
claims about it.

Python strings are modelled as Lean `String` (a structure holding a
`List Char`).  The Python string primitives used by the source
(`str.replace`, `str.split`, `str.strip`, `str.join`) are embedded as
executable functions over character lists with Python's documented
semantics (leftmost, non-overlapping replacement without rescanning of
replacement text; separator-based splitting; whitespace stripping).
-/

namespace StoryWeaver

/-- Python `str.replace` worker over character lists: scan left to right,
replace each leftmost non-overlapping occurrence of `pat` by `rep`; the
replacement text is not rescanned within the same call.  The `fuel`
argument makes the recursion structural; every step consumes at least one
character, so `fuel = length of the input` suffices. -/
def pyReplaceAux (pat rep : List Char) : Nat → List Char → List Char
  | _, [] => []
  | 0, l => l
  | fuel + 1, c :: cs =>
    if pat.isPrefixOf (c :: cs) then
      rep ++ pyReplaceAux pat rep fuel (cs.drop (pat.length - 1))
    else
      c :: pyReplaceAux pat rep fuel cs

/-- Python `str.replace` on strings. -/
def pyReplace (s pat rep : String) : String :=
  ⟨pyReplaceAux pat.data rep.data s.data.length s.data⟩

/-- Python `"sep".join(xs)`. -/
def pyJoin (sep : String) : List String → String
  | [] => ""
  | [x] => x
  | x :: y :: xs => x ++ sep ++ pyJoin sep (y :: xs)

/-- Python `str.strip()`: drop leading and trailing whitespace. -/
def pyStrip (s : String) : String :=
  ⟨((s.data.dropWhile Char.isWhitespace).reverse.dropWhile Char.isWhitespace).reverse⟩

/-- Python `text.split("\n\n")` worker: split a character list at each
leftmost non-overlapping occurrence of two consecutive newlines. -/
def splitParasAux : List Char → List Char → List (List Char)
  | acc, '\n' :: '\n' :: rest => acc.reverse :: splitParasAux [] rest
  | acc, c :: rest => splitParasAux (c :: acc) rest
  | acc, [] => [acc.reverse]

/-- Python `text.split("\n\n")`. -/
def splitParagraphs (s : String) : List String :=
  (splitParasAux [] s.data).map fun l => (⟨l⟩ : String)

/-- The apostrophe character (used by the source to build LaTeX quote
markup). -/
def sq : Char := '\x27'

/-- Two apostrophes: LaTeX closing-quote markup `∙∙` as produced by the
source. -/
def closingQuotes : String := ⟨[sq, sq]⟩

/-- `pdf_generator.py` lines 143-154: the `latex_special_chars` dict, in
Python 3.7+ insertion order. -/
def latex_special_chars : List (String × String) :=
  [("&", "\\&"),
   ("%", "\\%"),
   ("$", "\\$"),
   ("#", "\\#"),
   ("^", "\\textasciicircum\x7b\x7d"),
   ("_", "\\_"),
   ("\x7b", "\\\x7b"),
   ("\x7d", "\\\x7d"),
   ("~", "\\textasciitilde\x7b\x7d"),
   ("\\", "\\textbackslash\x7b\x7d")]

/-- `pdf_generator.py` lines 156-158: the escaping loop
`for char, replacement in latex_special_chars.items(): clean_text =
clean_text.replace(char, replacement)`. -/
def escape_special_chars (text : String) : String :=
  latex_special_chars.foldl (fun acc p => pyReplace acc p.1 p.2) text

/-- `pdf_generator.py` lines 160-163: quote handling.  All three `replace`
calls match the ASCII straight double quote 0x22 (the source bytes are
`27 22 27` in each call): the first rewrites every straight quote to two
apostrophes, after which the second (which would insert two backticks) and
the third never find a match. -/
def handle_quotes (s : String) : String :=
  pyReplace (pyReplace (pyReplace s "\"" closingQuotes) "\"" "``") "\"" closingQuotes

/-- `pdf_generator.py` lines 139-167: `_clean_text_for_latex`.  Escapes the
special characters, normalizes quotes, then splits into paragraphs on blank
lines, drops blank paragraphs and prefixes each remaining one with
`\noindent`. -/
def _clean_text_for_latex (text : String) : String :=
  let c2 := handle_quotes (escape_special_chars text)
  let paragraphs := splitParagraphs c2
  pyJoin "\n\n"
    ((paragraphs.filter fun p => pyStrip p ≠ "").map fun p => "\\noindent " ++ pyStrip p)

/-- Python `os.path.basename`: the part of the path after the last `/`. -/
def pyBasename (p : String) : String :=
  ⟨(p.data.reverse.takeWhile (· ≠ '/')).reverse⟩

/-- Worker for Python `len(s.split())`: count maximal runs of
non-whitespace characters.  The flag records whether the scan is currently
inside a word. -/
def countWordsAux : Bool → List Char → Nat
  | _, [] => 0
  | inWord, c :: cs =>
    if c.isWhitespace then countWordsAux false cs
    else (if inWord then 0 else 1) + countWordsAux true cs

/-- Python `len(s.split())`: the number of whitespace-separated words. -/
def word_count (s : String) : Nat :=
  countWordsAux false s.data

/-- A content row as returned by `DatabaseManager.get_project_content`
(`database.py` lines 352-364): optional text body, optional image and audio
file references, an integer order index, and the `caption` entry of the
metadata map (the only metadata key the generator reads). -/
structure ContentItem where
  id : String := ""
  project_id : String := ""
  type : String := ""
  content_text : Option String := none
  image_path : Option String := none
  audio_path : Option String := none
  order_index : Int := 0
  metadata_caption : Option String := none
  created_at : Nat := 0
deriving DecidableEq, Repr

/-- A project as consumed by the generator (`project['name']` is the only
field it reads besides existence). -/
structure Project where
  id : String := ""
  name : String := ""
deriving DecidableEq, Repr

/-- One scene bucket built by `_group_content_by_scene`
(`pdf_generator.py` lines 121-134): the dict value together with its dict
key `scene_index`. -/
structure Scene where
  scene_index : Int
  title : String
  text_items : List ContentItem
  image_items : List ContentItem
  audio_items : List ContentItem
deriving DecidableEq, Repr

/-- `pdf_generator.py` line 119: `scene_index = item['order_index'] // 10`
(Python floor division). -/
def scene_index_of (item : ContentItem) : Int :=
  item.order_index.fdiv 10

/-- `pdf_generator.py` lines 113-137: `_group_content_by_scene`.  Items are
bucketed in a dict keyed by `order_index // 10`; each bucket carries the
title `"Scene {key+1}"` and per-type item lists filled in input order; the
buckets are emitted for the sorted list of keys.  (The dict's insertion
order is irrelevant after `sorted(scenes.keys())`; the per-type lists are
`filter`s of the input because the loop appends in input order.) -/
def _group_content_by_scene (content_items : List ContentItem) : List Scene :=
  let keys :=
    ((content_items.map scene_index_of).dedup).insertionSort (· ≤ ·)
  keys.map fun k =>
    { scene_index := k
      title := "Scene " ++ toString (k + 1)
      text_items := content_items.filter fun it => it.type == "text" && scene_index_of it == k
      image_items := content_items.filter fun it => it.type == "image" && scene_index_of it == k
      audio_items := content_items.filter fun it => it.type == "audio" && scene_index_of it == k }

/-- The settings dict keys consumed by the generator
(`author`, `book_type`, `image_width`, `center_images`); absent keys are
`none`. -/
structure Settings where
  author : Option String := none
  book_type : Option String := none
  image_width : Option String := none
  center_images : Option Bool := none
deriving DecidableEq, Repr

/-- `pdf_generator.py` lines 169-204: `_create_image_section`.  Leading
slashes are stripped, width defaults to `0.8`, centering defaults on, and a
truthy metadata caption is escaped and appended. -/
def _create_image_section (image_item : ContentItem) (settings : Option Settings) : String :=
  let path0 := image_item.image_path.getD ""
  let image_path : String := ⟨path0.data.dropWhile (· == '/')⟩
  let width := match settings with
    | some st => st.image_width.getD "0.8"
    | none => "0.8"
  let centering := match settings with
    | some st => st.center_images.getD true
    | none => true
  let caption_part := match image_item.metadata_caption with
    | some c =>
      if c ≠ "" then
        ["\\caption\x7b" ++ _clean_text_for_latex c ++ "\x7d"]
      else []
    | none => []
  let image_latex :=
    ["\\begin\x7bfigure\x7d[h!]"]
    ++ (if centering then ["\\centering"] else [])
    ++ ["\\includegraphics[width=" ++ width ++ "\\textwidth]\x7b" ++ image_path ++ "\x7d"]
    ++ caption_part
    ++ ["\\end\x7bfigure\x7d", "\\vspace\x7b0.5em\x7d"]
  pyJoin "\n" image_latex

/-- The loop body of `_build_content_sections` (`pdf_generator.py` lines
80-109) for one scene.  `fe` is the `os.path.exists` oracle.  Text items
with truthy text are escaped; image items are emitted only when the path is
truthy and the file exists; a scene break is always appended.  The trailing
`if scene_sections:` guard of the source is kept even though the list is
never empty. -/
def scene_sections_of (fe : String → Bool) (settings : Option Settings) (scene_content : Scene) : List String :=
  let t := scene_content.title
  let title_part :=
    if t ≠ "" then
      if (match settings with
          | some st => st.book_type == some "comic"
          | none => false) then ["\\section*\x7b" ++ t ++ "\x7d"]
      else ["\\chapter\x7b" ++ t ++ "\x7d"]
    else []
  let text_part := scene_content.text_items.filterMap fun item =>
    match item.content_text with
    | some tx => if tx ≠ "" then some (_clean_text_for_latex tx) else none
    | none => none
  let image_part := scene_content.image_items.filterMap fun item =>
    match item.image_path with
    | some p => if p ≠ "" && fe p then some (_create_image_section item settings) else none
    | none => none
  let ss := title_part ++ text_part ++ image_part ++ ["\\vspace\x7b1em\x7d"]
  if ss.isEmpty then [] else ss

/-- `pdf_generator.py` lines 69-111: `_build_content_sections`. -/
def _build_content_sections (fe : String → Bool) (content_items : List ContentItem) (settings : Option Settings) : List String :=
  (_group_content_by_scene content_items).flatMap (scene_sections_of fe settings)

/-- `pdf_generator.py` lines 420-426: `_estimate_audio_duration`, expressed
in tenths of a minute.  The source computes `round(word_count / 150, 1)`;
a one-decimal value is exactly a number of tenths, and the number of tenths
is the integer nearest to `word_count / 15`.  Exact ties are impossible
(`word_count / 15` is a half-integer for no integer `word_count`), so the
nearest integer is `(2 * word_count + 15) / 30` in integer division and
Python's ties-to-even rounding never fires.  A falsy (absent or empty) text
yields the 1.0-minute default, i.e. 10 tenths. -/
def _estimate_audio_duration_tenths (audio_item : ContentItem) : Nat :=
  match audio_item.content_text with
  | some s => if s ≠ "" then (2 * word_count s + 15) / 30 else 10
  | none => 10

/-- Render a number of tenths the way Python formats the one-decimal float
inside the f-string (`2.0`, `0.5`, ...). -/
def formatOneDecimal (t : Nat) : String :=
  toString (t / 10) ++ "." ++ toString (t % 10)

/-- `pdf_generator.py` line 405: the audio filename of track `i` (1-based):
the basename of a truthy `audio_path`, else `track_{i}.mp3`. -/
def track_audio_filename (i : Nat) (audio_item : ContentItem) : String :=
  match audio_item.audio_path with
  | some p => if p ≠ "" then pyBasename p else "track_" ++ toString i ++ ".mp3"
  | none => "track_" ++ toString i ++ ".mp3"

/-- `pdf_generator.py` lines 404-411: the four lines appended for audio
track `i` (1-based). -/
def audiobook_track_sections (i : Nat) (audio_item : ContentItem) : List String :=
  let fn := track_audio_filename i audio_item
  let dur := formatOneDecimal (_estimate_audio_duration_tenths audio_item)
  ["\\subsection*\x7bTrack " ++ toString i ++ "\x7d",
   "\\textbf\x7bFile:\x7d " ++ fn ++ "\\\\",
   "\\textbf\x7bDuration:\x7d Approximately " ++ dur ++ " minutes\\\\",
   "\\vspace\x7b1em\x7d"]

/-- The fixed lines of the audiobook companion header before the title
line (`pdf_generator.py` lines 382-388). -/
def audiobook_header_front : List String :=
  ["\\documentclass[a5paper,12pt]\x7barticle\x7d",
   "\\usepackage[utf8]\x7binputenc\x7d",
   "\\usepackage\x7bgraphicx\x7d",
   "\\usepackage[margin=1in]\x7bgeometry\x7d",
   "\\usepackage\x7bhyperref\x7d",
   "\\usepackage\x7bxcolor\x7d",
   ""]

/-- The fixed lines of the audiobook companion header after the title line
(`pdf_generator.py` lines 390-402). -/
def audiobook_header_back : List String :=
  ["\\author\x7bStoryWeaver AI\x7d",
   "\\date\x7b\\today\x7d",
   "",
   "\\begin\x7bdocument\x7d",
   "\\maketitle",
   "\\newpage",
   "",
   "\\section*\x7bHow to Use This Audiobook\x7d",
   "This companion guide contains instructions for accessing the audio narration of your story.",
   "\\vspace\x7b1em\x7d",
   "",
   "\\section*\x7bAudio Tracks\x7d"]

/-- `pdf_generator.py` lines 381-402: the fixed header of the audiobook
companion document, with the escaped project name in the title. -/
def audiobook_header_sections (project : Project) : List String :=
  audiobook_header_front
  ++ ["\\title\x7bAudio Companion: " ++ _clean_text_for_latex project.name ++ "\x7d"]
  ++ audiobook_header_back

/-- `pdf_generator.py` lines 378-418: the `latex_sections` list built by
`_generate_audiobook_latex` (`enumerate(audio_items, 1)` is 1-based). -/
def _generate_audiobook_latex_sections (project : Project) (audio_items : List ContentItem) : List String :=
  audiobook_header_sections project
  ++ (List.enumFrom 1 audio_items).flatMap (fun p => audiobook_track_sections p.1 p.2)
  ++ ["", "\\end\x7bdocument\x7d"]

/-- `pdf_generator.py` line 418: `'\n'.join(latex_sections)`. -/
def _generate_audiobook_latex (project : Project) (audio_items : List ContentItem) : String :=
  pyJoin "\n" (_generate_audiobook_latex_sections project audio_items)

/-- Outcome of one `subprocess.run` invocation of the LaTeX compiler. -/
structure RunResult where
  returncode : Int
  stdout : String
  stderr : String
deriving DecidableEq, Repr

/-- How one compiler invocation ends: wall-clock timeout
(`subprocess.TimeoutExpired`), some other exception, or completion with a
result. -/
inductive RunOutcome where
  | timeout
  | exc (msg : String)
  | done (r : RunResult)
deriving DecidableEq, Repr

/-- The external world seen by one `compile_pdf` call: whether the
toolchain is invocable, the outcomes of the (up to two) compiler runs, and
whether `document.pdf` exists in the temporary directory afterwards. -/
structure CompileWorld where
  latexInstalled : Bool
  run1 : RunOutcome
  run2 : RunOutcome
  pdfProduced : Bool
deriving DecidableEq, Repr

/-- The observable result of `compile_pdf`: the returned
`(output_path, error)` pair, the contents of the stable output directory
after the call, and whether the temporary working directory was removed
(the `with tempfile.TemporaryDirectory()` block guarantees removal on every
exit path; paths that never create it also leave no directory behind). -/
structure CompileResult where
  output : Option String
  error : Option String
  outputDirFiles : List String
  tempDirRemoved : Bool
deriving DecidableEq, Repr

/-- `LATEX_OUTPUT_DIR` default (`pdf_generator.py` line 15). -/
def output_dir : String := "static/exports"

/-- `pdf_generator.py` lines 243-253: inspect the authoritative run, and on
success copy (not move) the artifact to the output directory; on failure
return the diagnostics, stderr falling back to stdout (Python
`stderr or stdout`), prefixed by `"LaTeX compilation failed:\n"`. -/
def finish_compile (final : RunResult) (pdfProduced : Bool) (output_filename : String) (dirFiles : List String) : CompileResult :=
  if final.returncode == 0 && pdfProduced then
    { output := some (output_dir ++ "/" ++ output_filename ++ ".pdf")
      error := none
      outputDirFiles := dirFiles ++ [output_filename ++ ".pdf"]
      tempDirRemoved := true }
  else
    { output := none
      error := some ("LaTeX compilation failed:\n"
                      ++ (if final.stderr ≠ "" then final.stderr else final.stdout))
      outputDirFiles := dirFiles
      tempDirRemoved := true }

/-- `pdf_generator.py` lines 206-258: `compile_pdf`.  Toolchain check, a
first compiler run, a conditional second run when the first exits zero and
`compile_twice` holds (the second run's result being authoritative), then
promotion or error reporting; timeouts and other exceptions are mapped to
their fixed messages.  The `latex_code` is written into the temporary
directory and does not otherwise influence the modelled observables. -/
def compile_pdf (w : CompileWorld) (latex_code : String) (output_filename : String) (compile_twice : Bool) (dirFiles : List String) : CompileResult :=
  if !w.latexInstalled then
    { output := none, error := some "LaTeX is not installed or not accessible"
      outputDirFiles := dirFiles, tempDirRemoved := true }
  else
    match w.run1 with
    | .timeout =>
      { output := none, error := some "LaTeX compilation timeout"
        outputDirFiles := dirFiles, tempDirRemoved := true }
    | .exc m =>
      { output := none, error := some ("PDF generation error: " ++ m)
        outputDirFiles := dirFiles, tempDirRemoved := true }
    | .done r1 =>
      if compile_twice && r1.returncode == 0 then
        match w.run2 with
        | .timeout =>
          { output := none, error := some "LaTeX compilation timeout"
            outputDirFiles := dirFiles, tempDirRemoved := true }
        | .exc m =>
          { output := none, error := some ("PDF generation error: " ++ m)
            outputDirFiles := dirFiles, tempDirRemoved := true }
        | .done r2 => finish_compile r2 w.pdfProduced output_filename dirFiles
      else finish_compile r1 w.pdfProduced output_filename dirFiles

/-- `pdf_generator.py` lines 357-376: `create_audiobook_companion`.  The
project lookup and content query are supplied as arguments; a project with
no audio-type items fails before any document is generated, otherwise the
companion document is compiled. -/
def create_audiobook_companion (w : CompileWorld) (dirFiles : List String) (project : Option Project) (content_items : List ContentItem) (output_filename : String) : CompileResult :=
  match project with
  | none =>
    { output := none, error := some "Project not found"
      outputDirFiles := dirFiles, tempDirRemoved := true }
  | some proj =>
    let audio_items := content_items.filter fun it => it.type == "audio"
    if audio_items.isEmpty then
      { output := none, error := some "No audio content found in project"
        outputDirFiles := dirFiles, tempDirRemoved := true }
    else
      compile_pdf w (_generate_audiobook_latex proj audio_items)
        (output_filename ++ "_audiobook") true dirFiles

/-- `ai_service.py` lines 15-41: `RateLimiter`.  Timestamps are rationals;
within a single call the two `time.time()` reads are modelled as the same
instant `now`. -/
structure RateLimiter where
  max_requests : Nat
  time_window : ℚ
  requests : List ℚ
deriving DecidableEq, Repr

/-- `ai_service.py` lines 23-29: `can_make_request` prunes timestamps that
have left the trailing window (`now - t < time_window` is kept) and admits
iff fewer than `max_requests` remain; the pruned state is kept (the method
mutates `self.requests`). -/
def can_make_request (rl : RateLimiter) (now : ℚ) : RateLimiter × Bool :=
  let pruned := rl.requests.filter fun t => now - t < rl.time_window
  ({ rl with requests := pruned }, decide (pruned.length < rl.max_requests))

/-- `ai_service.py` lines 31-33: `add_request`. -/
def add_request (rl : RateLimiter) (now : ℚ) : RateLimiter :=
  { rl with requests := rl.requests ++ [now] }

/-- `ai_service.py` lines 35-41: `time_until_next_request`.  `min([])`
would raise in Python, modelled as `none`; otherwise the returned value is
`time_window - (now - oldest)`. -/
def time_until_next_request (rl : RateLimiter) (now : ℚ) : RateLimiter × Option ℚ :=
  let res := can_make_request rl now
  if res.2 then (res.1, some 0)
  else
    match res.1.requests.min? with
    | some oldest => (res.1, some (rl.time_window - (now - oldest)))
    | none => (res.1, none)

/-- One parsed piece of a Python format string: literal text (with `{{`
and `}}` already decoded to braces) or a named replacement field. -/
inductive TmplToken where
  | lit (s : String)
  | var (name : String)
deriving DecidableEq, Repr

/-- Python `template.format(**vars)` on the parsed template: fields are
substituted left to right; the first field whose name is absent from the
map raises `KeyError(name)`, modelled as `.error name`. -/
def pyFormat (vars : List (String × String)) : List TmplToken → Except String String
  | [] => .ok ""
  | .lit s :: rest =>
    match pyFormat vars rest with
    | .ok t => .ok (s ++ t)
    | .error e => .error e
  | .var n :: rest =>
    match vars.lookup n with
    | some v =>
      match pyFormat vars rest with
      | .ok t => .ok (v ++ t)
      | .error e => .error e
    | none => .error n

/-- A template row as returned by `DatabaseManager.get_template`, with its
`latex_template` body in parsed form. -/
structure Template where
  id : String := ""
  latex_template : List TmplToken := []
deriving DecidableEq, Repr

/-- The apostrophe as a string; Python `str(KeyError('x'))` renders the
missing key in such quotes. -/
def sqs : String := ⟨[sq]⟩

/-- `pdf_generator.py` lines 30-67: `generate_latex_from_project`.  The two
store lookups and `datetime.now()` are supplied as arguments.  The Python
default `custom_settings=None` would raise `AttributeError` at line 55
(`custom_settings.get`), so calls supply a settings dict, modelled by a
`Settings` record.  The four template variables are exactly
`title`, `author`, `date`, `content`; a `KeyError e` from `format` becomes
the pair `(None, f"Template variable missing: {e}")`. -/
def generate_latex_from_project (fe : String → Bool) (project : Option Project) (template : Option Template) (content_items : List ContentItem) (custom_settings : Settings) (today : String) : Option String × Option String :=
  match project with
  | none => (none, some "Project not found")
  | some proj =>
    match template with
    | none => (none, some "Template not found")
    | some tmpl =>
      let latex_sections := _build_content_sections fe content_items (some custom_settings)
      let template_vars : List (String × String) :=
        [("title", proj.name),
         ("author", custom_settings.author.getD "StoryWeaver AI"),
         ("date", today),
         ("content", pyJoin "\n\n" latex_sections)]
      match pyFormat template_vars tmpl.latex_template with
      | .ok code => (some code, none)
      | .error e => (none, some ("Template variable missing: " ++ sqs ++ e ++ sqs))

/-- A row of the `projects` table (`database.py` lines 21-31).  Timestamps
are abstract instants (naturals); `settings` is kept as its serialized
text. -/
structure ProjectRow where
  id : String := ""
  name : String := ""
  type : String := ""
  created_at : Nat := 0
  updated_at : Nat := 0
  settings : String := "\x7b\x7d"
  status : String := "active"
deriving DecidableEq, Repr

/-- The Content Store state: the `projects` and `content` tables in row
order.  (Templates and sessions are untouched by the claims.) -/
structure Store where
  projects : List ProjectRow
  contents : List ContentItem
deriving DecidableEq, Repr

/-- The `kwargs` accepted by `update_project` (`database.py` lines
279-285): the recognized keys `name`, `type`, `status`, `settings`, each
present or absent; unrecognized keys are ignored by the source and hence
not modelled. -/
structure ProjectUpdates where
  name : Option String := none
  type : Option String := none
  status : Option String := none
  settings : Option String := none
deriving DecidableEq, Repr

/-- Whether any recognized field is present (Python `if fields:`). -/
def ProjectUpdates.hasAnyField (u : ProjectUpdates) : Bool :=
  u.name.isSome || u.type.isSome || u.status.isSome || u.settings.isSome

/-- The effect of the dynamic `UPDATE projects SET ... , updated_at =
CURRENT_TIMESTAMP WHERE id = ?` on one matching row. -/
def applyProjectUpdates (u : ProjectUpdates) (now : Nat) (p : ProjectRow) : ProjectRow :=
  { p with
    name := u.name.getD p.name
    type := u.type.getD p.type
    status := u.status.getD p.status
    settings := u.settings.getD p.settings
    updated_at := now }

/-- `database.py` lines 270-296: `update_project`.  With no recognized
field the query is never executed (no row is touched, no timestamp
stamped); otherwise every row with the given id is updated and stamped.
Returns `True` unconditionally. -/
def update_project (st : Store) (now : Nat) (project_id : String) (u : ProjectUpdates) : Store × Bool :=
  if u.hasAnyField then
    ({ st with projects := st.projects.map fun p =>
        if p.id == project_id then applyProjectUpdates u now p else p }, true)
  else (st, true)

/-- `database.py` lines 298-311: `delete_project` sets `status='deleted'`
and stamps `updated_at` on rows with the given id; nothing else changes. -/
def delete_project (st : Store) (now : Nat) (project_id : String) : Store × Bool :=
  ({ st with projects := st.projects.map fun p =>
      if p.id == project_id then { p with status := "deleted", updated_at := now } else p },
   true)

/-- `database.py` lines 313-336: `add_content` inserts one content row
(with `created_at` defaulting to the current time) and returns its id; the
`projects` table is not touched. -/
def add_content (st : Store) (content_id project_id content_type : String) (text image_path audio_path : Option String) (order_index : Int) (metadata_caption : Option String) (now : Nat) : Store × String :=
  ({ st with contents := st.contents ++
      [{ id := content_id, project_id := project_id, type := content_type,
         content_text := text, image_path := image_path, audio_path := audio_path,
         order_index := order_index, metadata_caption := metadata_caption,
         created_at := now }] },
   content_id)

/-- `database.py` lines 249-268: `get_project` — `SELECT * FROM projects
WHERE id = ?` with `fetchone`, no status filter. -/
def get_project (st : Store) (project_id : String) : Option ProjectRow :=
  st.projects.find? fun p => p.id == project_id

/-- `database.py` lines 215-247: `get_projects` — only rows with
`status = 'active'`, optionally filtered by type, ordered by `updated_at`
descending. -/
def get_projects (st : Store) (project_type : Option String) : List ProjectRow :=
  let rows := match project_type with
    | some t => st.projects.filter fun (p : ProjectRow) => p.type == t && p.status == "active"
    | none => st.projects.filter fun (p : ProjectRow) => p.status == "active"
  rows.insertionSort fun a b => b.updated_at ≤ a.updated_at

/-- Per-character description of the quote-handling pass (used to state the
amended C6 claim): a straight double quote becomes two apostrophes
(closing-quote markup) and every other character — typographic curly
quotes included — is unchanged. -/
def quoteCharSubst (c : Char) : List Char :=
  if c = '"' then [sq, sq] else [c]

/-- Character-list prefix test (first argument is the candidate prefix),
written with nested matches so that it evaluates by iota reduction. -/
def chStartsWith : List Char → List Char → Bool
  | [], _ => true
  | p :: ps, t =>
    match t with
    | [] => false
    | c :: cs => p == c && chStartsWith ps cs

/-- Boolean string-prefix test: `p` is a prefix of `s`. -/
def strStartsWith (s p : String) : Bool :=
  chStartsWith p.data s.data

/-- Spec-side template renderer: the template with every replacement field
substituted by its value from the map.  Compared against `pyFormat` in the
C2 theorem. -/
def renderTokens (vars : List (String × String)) : List TmplToken → String
  | [] => ""
  | .lit s :: rest => s ++ renderTokens vars rest
  | .var n :: rest => ((vars.lookup n).getD "") ++ renderTokens vars rest

/-- A scene with the image items whose referenced file is missing (or whose
path is falsy) removed; used to state that the assembler emits no block for
such items. -/
def existing_images_only (fe : String → Bool) (s : Scene) : Scene :=
  { s with image_items := s.image_items.filter fun it =>
      match it.image_path with
      | some p => p ≠ "" && fe p
      | none => false }

/-- Concrete world for the C4 counterexample: toolchain present, first run
fails with exit code 1, stderr `"errlog"`, stdout `"outlog"`; no PDF is
produced. -/
def c4_world : CompileWorld :=
  { latexInstalled := true
    run1 := .done { returncode := 1, stdout := "outlog", stderr := "errlog" }
    run2 := .done { returncode := 0, stdout := "", stderr := "" }
    pdfProduced := false }

/-- Concrete store for the C9 counterexample and the C10 witness: one
active project `p1` last updated at instant 0, no content. -/
def c9_store : Store :=
  { projects := [{ id := "p1", name := "Story", type := "story",
                   created_at := 0, updated_at := 0,
                   settings := "\x7b\x7d", status := "active" }]
    contents := [] }

/-! ### Helper lemmas about the Python string primitives -/

theorem strData_append (a b : String) : (a ++ b).data = a.data ++ b.data := rfl

theorem pyReplaceAux_nil (pat rep : List Char) (fuel : Nat) :
    pyReplaceAux pat rep fuel [] = [] := by
  cases fuel <;> rfl

theorem pyReplaceAux_single (p : Char) (rep : List Char) :
    ∀ (l : List Char) (fuel : Nat), l.length ≤ fuel →
      pyReplaceAux [p] rep fuel l = l.flatMap fun c => if c = p then rep else [c] := by
  intro l
  induction l with
  | nil => intro fuel _; simp [pyReplaceAux_nil]
  | cons c cs ih =>
    intro fuel hf
    cases fuel with
    | zero => simp at hf
    | succ f =>
      have hcs : cs.length ≤ f := by simp at hf; omega
      have hpre : List.isPrefixOf [p] (c :: cs) = (p == c) := by
        simp [List.isPrefixOf]
      by_cases hc : p = c
      · subst hc
        simp [pyReplaceAux, hpre, ih f hcs]
      · simp [pyReplaceAux, hpre, hc, Ne.symm hc, ih f hcs]

theorem pyReplace_single (s pat rep : String) (p : Char) (hp : pat.data = [p]) :
    pyReplace s pat rep = ⟨s.data.flatMap fun c => if c = p then rep.data else [c]⟩ := by
  unfold pyReplace
  rw [hp, pyReplaceAux_single p rep.data s.data s.data.length (le_refl _)]

theorem flatMap_comp' {α β γ : Type} (l : List α) (f : α → List β) (g : β → List γ) :
    (l.flatMap f).flatMap g = l.flatMap fun a => (f a).flatMap g := by
  induction l with
  | nil => rfl
  | cons a as ih => simp [List.flatMap_cons, ih]

theorem flatMap_congr_fun {α β : Type} (l : List α) (f g : α → List β)
    (h : ∀ a, f a = g a) : l.flatMap f = l.flatMap g := by
  induction l with
  | nil => rfl
  | cons a as ih => simp [List.flatMap_cons, h a, ih]

/-- C1: the source applies the ten escape rules one `str.replace` at a
time in dict order, with the backslash rule last, so the substitution is
not order-independent and replacement text is rewritten by later rules: on
the spec's own example the backslash introduced by the `&` rule is itself
rewritten by the backslash rule, yielding `\textbackslash{}&` (leaving the
`&` unescaped in the emitted markup) instead of the claimed `\&`. -/
theorem c1_escaping_rewrites_replacement_text :
    escape_special_chars "Once upon a time & far away"
        = "Once upon a time \\textbackslash\x7b\x7d& far away"
    ∧ escape_special_chars "Once upon a time & far away"
        ≠ "Once upon a time \\& far away"
    ∧ _clean_text_for_latex "Once upon a time & far away"
        = "\\noindent Once upon a time \\textbackslash\x7b\x7d& far away" := by
  refine ⟨by decide, by decide, by decide⟩

/-- C6 counterexample: on the input `"hi"` (straight double quotes) the
cleaning function renders BOTH straight quotes as closing-quote markup
(two apostrophes each), not as a paired opening `∙∙`/closing pair as the
claim states. -/
theorem c6_counterexample_straight_quotes :
    _clean_text_for_latex "\"hi\""
        = "\\noindent " ++ closingQuotes ++ "hi" ++ closingQuotes
    ∧ _clean_text_for_latex "\"hi\"" ≠ "\\noindent ``hi" ++ closingQuotes := by
  refine ⟨by decide, by decide⟩

/-- C6 (amended): quote normalization is a per-character substitution that
maps every straight double quote to closing-quote markup (two apostrophes)
and leaves every other character unchanged; no quote is ever turned into
opening-quote markup (the first replacement removes every straight quote,
so the backtick-inserting second replacement and the third are no-ops, and
typographic curly quotes pass through untouched). -/
theorem c6_amended_quote_normalization (s : String) :
    handle_quotes s = ⟨s.data.flatMap quoteCharSubst⟩ := by
  unfold handle_quotes
  rw [pyReplace_single s "\"" closingQuotes '"' rfl]
  rw [pyReplace_single _ "\"" "``" '"' rfl]
  rw [pyReplace_single _ "\"" closingQuotes '"' rfl]
  congr 1
  rw [flatMap_comp', flatMap_comp']
  refine flatMap_congr_fun _ _ _ fun c => ?_
  by_cases h1 : c = '"'
  · subst h1; decide
  · simp [quoteCharSubst, h1]

/-- C6 (amended), witness at a concrete input: the straight-quoted word
`"hi"` normalizes to two closing-quote marks around `hi`. -/
theorem c6_amended_quote_normalization_witness :
    handle_quotes "\"hi\"" = ⟨("\"hi\"".data.flatMap quoteCharSubst)⟩ :=
  c6_amended_quote_normalization "\"hi\""

theorem find?_map_of_id_preserved (l : List ProjectRow) (pid : String)
    (f : ProjectRow → ProjectRow) (hf : ∀ p, (f p).id = p.id) :
    (l.map f).find? (fun p => p.id == pid)
      = (l.find? fun p => p.id == pid).map f := by
  induction l with
  | nil => rfl
  | cons a as ih =>
    have hpred : ((f a).id == pid) = (a.id == pid) := by rw [hf]
    cases hb : (a.id == pid) with
    | true => simp [List.find?_cons, hpred, hb]
    | false => simp [List.find?_cons, hpred, hb, ih]

/-- C9 counterexample: `add_content` at instant 5 against a project whose
`updated_at` is 0 inserts the content row but leaves the `projects` table
untouched, so the owning project's `updated_at` is still 0, not the
current time 5 — the claim that every such write stamps `updated_at` is
false. -/
theorem c9_counterexample_add_content_does_not_stamp :
    ((add_content c9_store "c1" "p1" "text" (some "hi") none none 0 none 5).1).projects
        = c9_store.projects
    ∧ (get_project ((add_content c9_store "c1" "p1" "text" (some "hi") none none 0 none 5).1)
          "p1").map ProjectRow.updated_at = some 0
    ∧ (5 : Nat) ≠ 0 := by
  refine ⟨by decide, by decide, by decide⟩

/-- C9 (amended): `update_project` stamps `updated_at` with the current
time on the targeted project whenever it performs a write (at least one
recognized field supplied), and `delete_project` always does; `add_content`
leaves the `projects` table — and hence the owning project's `updated_at`
— entirely unchanged. -/
theorem c9_amended_updated_at_stamping :
    (∀ (st : Store) (now : Nat) (pid : String) (u : ProjectUpdates),
        u.hasAnyField = true →
        ∀ p ∈ ((update_project st now pid u).1).projects, p.id = pid → p.updated_at = now)
    ∧ (∀ (st : Store) (now : Nat) (pid : String),
        ∀ p ∈ ((delete_project st now pid).1).projects, p.id = pid → p.updated_at = now)
    ∧ (∀ (st : Store) (cid pid ct : String) (tx ip ap : Option String) (oi : Int)
        (mc : Option String) (now : Nat),
        ((add_content st cid pid ct tx ip ap oi mc now).1).projects = st.projects) := by
  refine ⟨?_, ?_, ?_⟩
  · intro st now pid u hu p hp hid
    simp only [update_project, hu, if_true] at hp
    rcases List.mem_map.mp hp with ⟨q, _, hpq⟩
    cases hb : (q.id == pid) with
    | true => rw [hb] at hpq; simp at hpq; subst hpq; rfl
    | false =>
      rw [hb] at hpq; simp at hpq; subst hpq
      exact absurd (by simpa using hid) (by simpa using hb)
  · intro st now pid p hp hid
    simp only [delete_project] at hp
    rcases List.mem_map.mp hp with ⟨q, _, hpq⟩
    cases hb : (q.id == pid) with
    | true => rw [hb] at hpq; simp at hpq; subst hpq; rfl
    | false =>
      rw [hb] at hpq; simp at hpq; subst hpq
      exact absurd (by simpa using hid) (by simpa using hb)
  · intro st cid pid ct tx ip ap oi mc now
    rfl

/-- C9 (amended), witness: concrete applications — an `update_project` with
a name field at instant 7 stamps the row, `delete_project` at instant 9
stamps the row, and a concrete `add_content` leaves `projects` unchanged. -/
theorem c9_amended_updated_at_stamping_witness :
    ({ name := some "N" } : ProjectUpdates).hasAnyField = true
    ∧ ({ id := "p1", name := "N", type := "story", created_at := 0, updated_at := 7,
         settings := "\x7b\x7d", status := "active" } : ProjectRow).updated_at = 7
    ∧ ({ id := "p1", name := "Story", type := "story", created_at := 0, updated_at := 9,
         settings := "\x7b\x7d", status := "deleted" } : ProjectRow).updated_at = 9
    ∧ ((add_content c9_store "c1" "p1" "text" (some "hi") none none 0 none 5).1).projects
        = c9_store.projects := by
  refine ⟨by decide, ?_, ?_, ?_⟩
  · exact c9_amended_updated_at_stamping.1 c9_store 7 "p1" { name := some "N" }
      (by decide) _ (by decide) (by decide)
  · exact c9_amended_updated_at_stamping.2.1 c9_store 9 "p1" _ (by decide) (by decide)
  · exact c9_amended_updated_at_stamping.2.2 c9_store "c1" "p1" "text" (some "hi")
      none none 0 none 5

/-- C10: `delete_project` is a soft delete: the `projects` table changes
only by setting `status := "deleted"` and stamping `updated_at` on the
targeted rows, the content rows are untouched, `get_project` still returns
the full record (now with status `deleted`), and `get_projects` no longer
lists the project. -/
theorem c10_soft_delete (st : Store) (now : Nat) (pid : String) (row : ProjectRow)
    (h : get_project st pid = some row) :
    get_project ((delete_project st now pid).1) pid
        = some { row with status := "deleted", updated_at := now }
    ∧ ((delete_project st now pid).1).contents = st.contents
    ∧ ((delete_project st now pid).1).projects
        = (st.projects.map fun p =>
            if p.id == pid then { p with status := "deleted", updated_at := now } else p)
    ∧ ∀ p ∈ get_projects ((delete_project st now pid).1) none, p.id ≠ pid := by
  have hfind0 : st.projects.find? (fun p => p.id == pid) = some row := h
  have hrowid : (row.id == pid) = true := by
    have hx := List.find?_some hfind0
    simpa using hx
  refine ⟨?_, rfl, rfl, ?_⟩
  · show ((delete_project st now pid).1).projects.find? (fun p => p.id == pid) = _
    have hfind :
        ((delete_project st now pid).1).projects.find? (fun p => p.id == pid)
          = (st.projects.find? fun p => p.id == pid).map fun p =>
              if p.id == pid then { p with status := "deleted", updated_at := now } else p := by
      apply find?_map_of_id_preserved
      intro p
      cases hb : (p.id == pid) <;> simp [hb]
    rw [hfind]
    have h2 : st.projects.find? (fun p => p.id == pid) = some row := h
    rw [h2]
    have hide : row.id = pid := by simpa using hrowid
    simp [Option.map_some', hide]
  · intro p hp
    have hp2 : p ∈ ((delete_project st now pid).1).projects.filter
        fun (q : ProjectRow) => q.status == "active" :=
      ((List.perm_insertionSort _ _).mem_iff).mp hp
    rcases List.mem_filter.mp hp2 with ⟨hpm, hstat⟩
    rcases List.mem_map.mp hpm with ⟨q, _, hpq⟩
    cases hb : (q.id == pid) with
    | true =>
      rw [hb] at hpq; simp at hpq; subst hpq
      simp at hstat
    | false =>
      rw [hb] at hpq; simp at hpq; subst hpq
      intro hcontra
      exact absurd (by simpa using hcontra) (by simpa using hb)

/-- C10 witness: deleting the concrete project `p1` at instant 3 keeps it
retrievable by `get_project` with status `deleted`. -/
theorem c10_soft_delete_witness :
    get_project c9_store "p1"
        = some { id := "p1", name := "Story", type := "story", created_at := 0,
                 updated_at := 0, settings := "\x7b\x7d", status := "active" }
    ∧ get_project ((delete_project c9_store 3 "p1").1) "p1"
        = some { id := "p1", name := "Story", type := "story", created_at := 0,
                 updated_at := 3, settings := "\x7b\x7d", status := "deleted" } :=
  ⟨by decide,
   (c10_soft_delete c9_store 3 "p1"
      { id := "p1", name := "Story", type := "story", created_at := 0,
        updated_at := 0, settings := "\x7b\x7d", status := "active" }
      (by decide)).1⟩

/-- C5: for a limiter with `max_requests = 2`, `time_window = 60`:
a check admits iff fewer than 2 recorded timestamps lie in the trailing
60-second window; after two admissions at `t1 ≤ t2` still inside the
window, a third check is rejected and `time_until_next_request` returns
`60 - (now - t1)` — the seconds until the oldest timestamp `t1` exits the
window (it exits at `t1 + 60`, and `60 - (now - t1) = (t1 + 60) - now`) —
which is strictly positive; and once 60 seconds have elapsed from the
oldest admitted timestamp, a subsequent check admits again. -/
theorem c5_rate_limiter :
    (∀ (reqs : List ℚ) (now : ℚ),
        ((can_make_request { max_requests := 2, time_window := 60, requests := reqs } now).2
            = true)
          ↔ (reqs.filter fun t => now - t < 60).length < 2)
    ∧ (∀ t1 t2 now : ℚ, t1 ≤ t2 → now - t1 < 60 →
        (can_make_request
            (add_request (add_request
              { max_requests := 2, time_window := 60, requests := [] } t1) t2) now).2 = false
        ∧ (time_until_next_request
            (add_request (add_request
              { max_requests := 2, time_window := 60, requests := [] } t1) t2) now).2
            = some (60 - (now - t1))
        ∧ 0 < 60 - (now - t1))
    ∧ (∀ t1 t2 now : ℚ, t1 ≤ t2 → 60 ≤ now - t1 →
        (can_make_request
            (add_request (add_request
              { max_requests := 2, time_window := 60, requests := [] } t1) t2) now).2
          = true) := by
  refine ⟨?_, ?_, ?_⟩
  · intro reqs now
    simp [can_make_request]
  · intro t1 t2 now h12 h1
    have ht2 : now - t2 < 60 := lt_of_le_of_lt (by linarith) h1
    have hreject :
        (can_make_request
            (add_request (add_request
              { max_requests := 2, time_window := 60, requests := [] } t1) t2) now).2
          = false := by
      simp [can_make_request, add_request, List.filter_cons, h1, ht2]
    refine ⟨hreject, ?_, by linarith⟩
    simp only [time_until_next_request, hreject]
    simp [can_make_request, add_request, List.filter_cons, h1, ht2, List.min?,
      min_eq_left h12]
  · intro t1 t2 now h12 h60
    have h1 : ¬(now - t1 < 60) := not_lt.mpr h60
    by_cases hc : now - t2 < 60
    · simp [can_make_request, add_request, List.filter_cons, h1, hc]
    · simp [can_make_request, add_request, List.filter_cons, h1, hc]

/-- C5 witness: the scenario at `t1 = 0`, `t2 = 1`, checks at `now = 2`
(rejected, 58 seconds to wait) and `now = 61` (admitted again). -/
theorem c5_rate_limiter_witness :
    (can_make_request
        (add_request (add_request
          { max_requests := 2, time_window := 60, requests := [] } (0 : ℚ)) 1) 2).2 = false
    ∧ (time_until_next_request
        (add_request (add_request
          { max_requests := 2, time_window := 60, requests := [] } (0 : ℚ)) 1) 2).2
        = some (60 - (2 - 0))
    ∧ (can_make_request
        (add_request (add_request
          { max_requests := 2, time_window := 60, requests := [] } (0 : ℚ)) 1) 61).2
        = true := by
  refine ⟨?_, ?_, ?_⟩
  · exact (c5_rate_limiter.2.1 0 1 2 (by norm_num) (by norm_num)).1
  · exact (c5_rate_limiter.2.1 0 1 2 (by norm_num) (by norm_num)).2.1
  · exact c5_rate_limiter.2.2 0 1 61 (by norm_num) (by norm_num)

theorem finish_compile_on_error (r : RunResult) (pdf : Bool) (fn : String)
    (dir : List String) (h : ((finish_compile r pdf fn dir).error).isSome = true) :
    (finish_compile r pdf fn dir).outputDirFiles = dir
    ∧ (finish_compile r pdf fn dir).output = none := by
  unfold finish_compile at h ⊢
  by_cases hc : (r.returncode == 0 && pdf) = true
  · rw [if_pos hc] at h
    simp at h
  · rw [if_neg hc] at h ⊢
    exact ⟨rfl, rfl⟩

theorem finish_compile_temp_removed (r : RunResult) (pdf : Bool) (fn : String)
    (dir : List String) : (finish_compile r pdf fn dir).tempDirRemoved = true := by
  unfold finish_compile
  split <;> rfl

theorem finish_compile_failed_payload (r : RunResult) (pdf : Bool) (fn : String)
    (dir : List String) (hfail : ¬(r.returncode = 0 ∧ pdf = true)) :
    (finish_compile r pdf fn dir).error
      = some ("LaTeX compilation failed:\n"
          ++ (if r.stderr ≠ "" then r.stderr else r.stdout)) := by
  unfold finish_compile
  rw [if_neg]
  intro hc
  simp at hc
  exact hfail ⟨hc.1, hc.2⟩

/-- C4 counterexample: on a completed compiler run with exit code 1,
stderr `"errlog"` and no PDF, the returned error payload is the stderr
prefixed with the fixed line `"LaTeX compilation failed:\n"`, not the
stderr verbatim as the claim states. -/
theorem c4_counterexample_payload_is_prefixed :
    (compile_pdf c4_world "x" "doc" true []).error
        = some ("LaTeX compilation failed:\n" ++ "errlog")
    ∧ (compile_pdf c4_world "x" "doc" true []).error ≠ some "errlog" := by
  refine ⟨by decide, by decide⟩

/-- C4 (amended): on every failing outcome of `compile_pdf` (toolchain
missing, timeout, exception, compiler non-zero exit or missing output
file) no artifact is promoted — the output directory is unchanged and no
output path is returned; the temporary directory is removed on every exit
path, success included; and on a normal compiler failure the error payload
is the compiler's stderr, falling back to stdout when stderr is empty,
prefixed with the fixed header line `"LaTeX compilation failed:"`. -/
theorem c4_amended_compile_failure_behavior :
    (∀ (w : CompileWorld) (lc fn : String) (tw : Bool) (dir : List String),
        ((compile_pdf w lc fn tw dir).error).isSome = true →
        (compile_pdf w lc fn tw dir).outputDirFiles = dir
        ∧ (compile_pdf w lc fn tw dir).output = none)
    ∧ (∀ (w : CompileWorld) (lc fn : String) (tw : Bool) (dir : List String),
        (compile_pdf w lc fn tw dir).tempDirRemoved = true)
    ∧ (∀ (w : CompileWorld) (lc fn : String) (tw : Bool) (dir : List String) (r1 : RunResult),
        w.latexInstalled = true → w.run1 = .done r1 →
        ¬(tw = true ∧ r1.returncode = 0) →
        ¬(r1.returncode = 0 ∧ w.pdfProduced = true) →
        (compile_pdf w lc fn tw dir).error
          = some ("LaTeX compilation failed:\n"
              ++ (if r1.stderr ≠ "" then r1.stderr else r1.stdout)))
    ∧ (∀ (w : CompileWorld) (lc fn : String) (dir : List String) (r1 r2 : RunResult),
        w.latexInstalled = true → w.run1 = .done r1 → r1.returncode = 0 →
        w.run2 = .done r2 →
        ¬(r2.returncode = 0 ∧ w.pdfProduced = true) →
        (compile_pdf w lc fn true dir).error
          = some ("LaTeX compilation failed:\n"
              ++ (if r2.stderr ≠ "" then r2.stderr else r2.stdout))) := by
  refine ⟨?_, ?_, ?_, ?_⟩
  · intro w lc fn tw dir h
    rcases w with ⟨inst, rn1, rn2, pdf⟩
    cases inst with
    | false => exact ⟨rfl, rfl⟩
    | true =>
      cases rn1 with
      | timeout => exact ⟨rfl, rfl⟩
      | exc m => exact ⟨rfl, rfl⟩
      | done r1 =>
        simp only [compile_pdf] at h ⊢
        by_cases hc : (tw && (r1.returncode == 0)) = true
        · rw [hc] at h ⊢
          simp only [if_true]
          cases rn2 with
          | timeout => exact ⟨rfl, rfl⟩
          | exc m => exact ⟨rfl, rfl⟩
          | done r2 => exact finish_compile_on_error r2 pdf fn dir (by simpa using h)
        · rw [Bool.not_eq_true] at hc
          rw [hc] at h ⊢
          simp only [Bool.false_eq_true, if_false]
          exact finish_compile_on_error r1 pdf fn dir (by simpa [hc] using h)
  · intro w lc fn tw dir
    rcases w with ⟨inst, rn1, rn2, pdf⟩
    cases inst with
    | false => rfl
    | true =>
      cases rn1 with
      | timeout => rfl
      | exc m => rfl
      | done r1 =>
        simp only [compile_pdf]
        by_cases hc : (tw && (r1.returncode == 0)) = true
        · rw [hc]
          simp only [if_true]
          cases rn2 with
          | timeout => rfl
          | exc m => rfl
          | done r2 => exact finish_compile_temp_removed r2 pdf fn dir
        · rw [Bool.not_eq_true] at hc
          rw [hc]
          simp only [Bool.false_eq_true, if_false]
          exact finish_compile_temp_removed r1 pdf fn dir
  · intro w lc fn tw dir r1 hi hr1 hn hfail
    rcases w with ⟨inst, rn1, rn2, pdf⟩
    simp only at hi hr1
    subst hi
    subst hr1
    have hcond : (tw && (r1.returncode == 0)) = false := by
      cases tw with
      | false => rfl
      | true =>
        rw [Bool.true_and]
        exact beq_eq_false_iff_ne.mpr fun h0 => hn ⟨rfl, h0⟩
    simp only [compile_pdf, hcond, Bool.false_eq_true, if_false, Bool.not_true]
    exact finish_compile_failed_payload r1 pdf fn dir (by simpa using hfail)
  · intro w lc fn dir r1 r2 hi hr1 hrc hr2 hfail
    rcases w with ⟨inst, rn1, rn2, pdf⟩
    simp only at hi hr1 hr2
    subst hi
    subst hr1
    subst hr2
    have hcond : (true && (r1.returncode == 0)) = true := by
      rw [Bool.true_and]
      exact beq_iff_eq.mpr hrc
    simp only [compile_pdf, hcond, if_true, Bool.not_true]
    exact finish_compile_failed_payload r2 pdf fn dir (by simpa using hfail)

/-- C4 (amended), witness: the concrete failing world of the
counterexample — error present, output directory unchanged, no output,
temporary directory removed, payload prefixed stderr. -/
theorem c4_amended_compile_failure_behavior_witness :
    (compile_pdf c4_world "x" "doc" true []).outputDirFiles = ([] : List String)
    ∧ (compile_pdf c4_world "x" "doc" true []).output = none
    ∧ (compile_pdf c4_world "x" "doc" true []).tempDirRemoved = true
    ∧ (compile_pdf c4_world "x" "doc" true []).error
        = some ("LaTeX compilation failed:\n"
            ++ (if ("errlog" : String) ≠ "" then "errlog" else "outlog")) := by
  refine ⟨?_, ?_, ?_, ?_⟩
  · exact (c4_amended_compile_failure_behavior.1 c4_world "x" "doc" true [] (by decide)).1
  · exact (c4_amended_compile_failure_behavior.1 c4_world "x" "doc" true [] (by decide)).2
  · exact c4_amended_compile_failure_behavior.2.1 c4_world "x" "doc" true []
  · exact c4_amended_compile_failure_behavior.2.2.1 c4_world "x" "doc" true []
      { returncode := 1, stdout := "outlog", stderr := "errlog" }
      rfl rfl (by simp) (by simp [c4_world])

theorem lookup_isSome_iff (n : String) :
    ∀ (vars : List (String × String)),
      ((vars.lookup n).isSome = true) ↔ n ∈ vars.map Prod.fst := by
  intro vars
  induction vars with
  | nil => simp
  | cons kv rest ih =>
    rcases kv with ⟨k, v⟩
    by_cases h : n = k
    · subst h; simp [List.lookup]
    · have hne : (n == k) = false := beq_eq_false_iff_ne.mpr h
      simp only [List.lookup, hne, List.map_cons, List.mem_cons]
      rw [ih]
      simp [h]

theorem pyFormat_ok_of (vars : List (String × String)) :
    ∀ (tokens : List TmplToken),
      (∀ n, TmplToken.var n ∈ tokens → (vars.lookup n).isSome = true) →
      pyFormat vars tokens = .ok (renderTokens vars tokens) := by
  intro tokens
  induction tokens with
  | nil => intro _; rfl
  | cons t rest ih =>
    intro h
    cases t with
    | lit s =>
      have hr := ih fun n hn => h n (by simp [hn])
      simp [pyFormat, renderTokens, hr]
    | var n =>
      have hl : (vars.lookup n).isSome = true := h n (by simp)
      rcases Option.isSome_iff_exists.mp hl with ⟨v, hv⟩
      have hr := ih fun m hm => h m (by simp [hm])
      simp [pyFormat, renderTokens, hv, hr]

theorem pyFormat_error_of (vars : List (String × String)) :
    ∀ (tokens : List TmplToken),
      (∃ n, TmplToken.var n ∈ tokens ∧ vars.lookup n = none) →
      ∃ e, pyFormat vars tokens = .error e
        ∧ TmplToken.var e ∈ tokens ∧ vars.lookup e = none := by
  intro tokens
  induction tokens with
  | nil => rintro ⟨n, hmem, _⟩; simp at hmem
  | cons t rest ih =>
    rintro ⟨n, hmem, hnone⟩
    cases t with
    | lit s =>
      have hmem' : TmplToken.var n ∈ rest := by simpa using hmem
      rcases ih ⟨n, hmem', hnone⟩ with ⟨e, he, hem, hen⟩
      exact ⟨e, by simp [pyFormat, he], by simp [hem], hen⟩
    | var m =>
      rcases hm : vars.lookup m with _ | v
      · exact ⟨m, by simp [pyFormat, hm], by simp, hm⟩
      · have hnm : TmplToken.var n ∈ rest := by
          rcases List.mem_cons.mp hmem with heq | hin
          · exfalso
            have : n = m := by simpa using heq
            rw [this, hm] at hnone
            simp at hnone
          · exact hin
        rcases ih ⟨n, hnm, hnone⟩ with ⟨e, he, hem, hen⟩
        exact ⟨e, by simp [pyFormat, hm, he], by simp [hem], hen⟩

/-- C2: template filling errors with a missing-variable message naming the
variable if and only if the template references a placeholder outside the
supplied map `{title, author, date, content}`; on the error no markup is
produced (the first component is `none`), and otherwise it succeeds with
every occurrence of every placeholder substituted (the spec-side renderer
`renderTokens`). -/
theorem c2_template_fill_missing_variable :
    (∀ (fe : String → Bool) (proj : Project) (tmpl : Template)
        (items : List ContentItem) (settings : Settings) (today : String),
        (∀ n, TmplToken.var n ∈ tmpl.latex_template →
            n ∈ (["title", "author", "date", "content"] : List String)) →
        (generate_latex_from_project fe (some proj) (some tmpl) items settings today).2 = none
        ∧ (generate_latex_from_project fe (some proj) (some tmpl) items settings today).1
            = some (renderTokens
                [("title", proj.name),
                 ("author", settings.author.getD "StoryWeaver AI"),
                 ("date", today),
                 ("content", pyJoin "\n\n" (_build_content_sections fe items (some settings)))]
                tmpl.latex_template))
    ∧ (∀ (fe : String → Bool) (proj : Project) (tmpl : Template)
        (items : List ContentItem) (settings : Settings) (today : String),
        (∃ n, TmplToken.var n ∈ tmpl.latex_template
            ∧ n ∉ (["title", "author", "date", "content"] : List String)) →
        (generate_latex_from_project fe (some proj) (some tmpl) items settings today).1 = none
        ∧ ∃ n, TmplToken.var n ∈ tmpl.latex_template
            ∧ n ∉ (["title", "author", "date", "content"] : List String)
            ∧ (generate_latex_from_project fe (some proj) (some tmpl) items settings today).2
                = some ("Template variable missing: " ++ sqs ++ n ++ sqs)) := by
  constructor
  · intro fe proj tmpl items settings today h
    have hok := pyFormat_ok_of
      [("title", proj.name),
       ("author", settings.author.getD "StoryWeaver AI"),
       ("date", today),
       ("content", pyJoin "\n\n" (_build_content_sections fe items (some settings)))]
      tmpl.latex_template
      (fun n hn => (lookup_isSome_iff n _).mpr (by simpa using h n hn))
    simp [generate_latex_from_project, hok]
  · intro fe proj tmpl items settings today ⟨n, hmem, hnot⟩
    have hnone : ([("title", proj.name),
       ("author", settings.author.getD "StoryWeaver AI"),
       ("date", today),
       ("content", pyJoin "\n\n" (_build_content_sections fe items (some settings)))].lookup n)
        = none := by
      rw [← Option.not_isSome_iff_eq_none]
      intro hs
      exact hnot (by simpa using (lookup_isSome_iff n _).mp hs)
    rcases pyFormat_error_of _ tmpl.latex_template ⟨n, hmem, hnone⟩ with ⟨e, he, hem, hen⟩
    have henot : e ∉ (["title", "author", "date", "content"] : List String) := by
      intro hmem4
      have : (([("title", proj.name),
        ("author", settings.author.getD "StoryWeaver AI"),
        ("date", today),
        ("content", pyJoin "\n\n" (_build_content_sections fe items (some settings)))].lookup e).isSome)
          = true := (lookup_isSome_iff e _).mpr (by simpa using hmem4)
      rw [hen] at this
      simp at this
    constructor
    · simp [generate_latex_from_project, he]
    · exact ⟨e, hem, henot, by simp [generate_latex_from_project, he]⟩

/-- C2 witness: a template referencing only `title` succeeds with the
title substituted; a template referencing the unknown placeholder `body`
aborts with the missing-variable error naming `body`. -/
theorem c2_template_fill_missing_variable_witness :
    (generate_latex_from_project (fun _ => false) (some { id := "p", name := "N" })
        (some { id := "t", latex_template := [.lit "T: ", .var "title"] }) [] {} "today").2
        = none
    ∧ (generate_latex_from_project (fun _ => false) (some { id := "p", name := "N" })
        (some { id := "t2", latex_template := [.var "body"] }) [] {} "today").1
        = none := by
  constructor
  · exact (c2_template_fill_missing_variable.1 (fun _ => false) { id := "p", name := "N" }
      { id := "t", latex_template := [.lit "T: ", .var "title"] } [] {} "today"
      (by intro n hn; simp at hn; simp [hn])).1
  · exact (c2_template_fill_missing_variable.2 (fun _ => false) { id := "p", name := "N" }
      { id := "t2", latex_template := [.var "body"] } [] {} "today"
      ⟨"body", by simp, by decide⟩).1

theorem group_keys_mem (items : List ContentItem) (k : Int) :
    k ∈ ((items.map scene_index_of).dedup).insertionSort (· ≤ ·)
      ↔ k ∈ items.map scene_index_of := by
  rw [(List.perm_insertionSort _ _).mem_iff, List.mem_dedup]

theorem group_keys_sorted (items : List ContentItem) :
    List.Sorted (· ≤ ·) (((items.map scene_index_of).dedup).insertionSort (· ≤ ·)) :=
  List.sorted_insertionSort _ _

theorem group_keys_nodup (items : List ContentItem) :
    (((items.map scene_index_of).dedup).insertionSort (· ≤ ·)).Nodup :=
  (List.perm_insertionSort _ _).nodup_iff.mpr (List.nodup_dedup _)

theorem group_map_key_title (items : List ContentItem) :
    (_group_content_by_scene items).map (fun s => (s.scene_index, s.title))
      = (((items.map scene_index_of).dedup).insertionSort (· ≤ ·)).map
          fun k => (k, "Scene " ++ toString (k + 1)) := by
  unfold _group_content_by_scene
  rw [List.map_map]
  rfl

/-- C3: grouping partitions the items into buckets keyed by
`order_index // 10`: the emitted buckets have strictly increasing keys,
each bucket carries the synthesized title `"Scene {key+1}"`, an item lies
in a bucket's per-type list exactly when its key equals the bucket's key
(so reordering items never changes which bucket an item lands in), every
input item has its bucket present, and two inputs with the same multiset
of order indices yield identical bucket keys, ordering and titles. -/
theorem c3_grouping_partition :
    (∀ items : List ContentItem,
        ((_group_content_by_scene items).map Scene.scene_index).Pairwise (· < ·))
    ∧ (∀ (items : List ContentItem) (s : Scene), s ∈ _group_content_by_scene items →
        s.title = "Scene " ++ toString (s.scene_index + 1)
        ∧ (∀ it, it ∈ s.text_items ↔
            it ∈ items ∧ it.type = "text" ∧ scene_index_of it = s.scene_index)
        ∧ (∀ it, it ∈ s.image_items ↔
            it ∈ items ∧ it.type = "image" ∧ scene_index_of it = s.scene_index)
        ∧ (∀ it, it ∈ s.audio_items ↔
            it ∈ items ∧ it.type = "audio" ∧ scene_index_of it = s.scene_index))
    ∧ (∀ (items : List ContentItem) (it : ContentItem), it ∈ items →
        ∃ s ∈ _group_content_by_scene items, s.scene_index = scene_index_of it)
    ∧ (∀ (l1 l2 : List ContentItem),
        (l1.map fun it => it.order_index).Perm (l2.map fun it => it.order_index) →
        (_group_content_by_scene l1).map (fun s => (s.scene_index, s.title))
          = (_group_content_by_scene l2).map fun s => (s.scene_index, s.title)) := by
  refine ⟨?_, ?_, ?_, ?_⟩
  · intro items
    unfold _group_content_by_scene
    rw [List.map_map]
    have hmap :
        (((items.map scene_index_of).dedup).insertionSort (· ≤ ·)).map
            (Scene.scene_index ∘ fun k =>
              ({ scene_index := k
                 title := "Scene " ++ toString (k + 1)
                 text_items := items.filter fun it =>
                   it.type == "text" && scene_index_of it == k
                 image_items := items.filter fun it =>
                   it.type == "image" && scene_index_of it == k
                 audio_items := items.filter fun it =>
                   it.type == "audio" && scene_index_of it == k } : Scene))
          = ((items.map scene_index_of).dedup).insertionSort (· ≤ ·) := by
      rw [show (Scene.scene_index ∘ fun k =>
              ({ scene_index := k
                 title := "Scene " ++ toString (k + 1)
                 text_items := items.filter fun it =>
                   it.type == "text" && scene_index_of it == k
                 image_items := items.filter fun it =>
                   it.type == "image" && scene_index_of it == k
                 audio_items := items.filter fun it =>
                   it.type == "audio" && scene_index_of it == k } : Scene))
            = fun k => k from rfl]
      exact List.map_id' _
    rw [hmap]
    exact (List.Pairwise.and (group_keys_sorted items) (group_keys_nodup items)).imp
      fun h => lt_of_le_of_ne h.1 h.2
  · intro items s hs
    unfold _group_content_by_scene at hs
    rcases List.mem_map.mp hs with ⟨k, _, rfl⟩
    refine ⟨rfl, ?_, ?_, ?_⟩ <;>
      (intro it
       rw [List.mem_filter]
       simp [scene_index_of])
  · intro items it hit
    have hk : scene_index_of it ∈
        ((items.map scene_index_of).dedup).insertionSort (· ≤ ·) :=
      (group_keys_mem items _).mpr (List.mem_map_of_mem _ hit)
    unfold _group_content_by_scene
    exact ⟨_, List.mem_map_of_mem _ hk, rfl⟩
  · intro l1 l2 hperm
    have hsi : ∀ l : List ContentItem,
        l.map scene_index_of = (l.map fun it => it.order_index).map fun o => o.fdiv 10 := by
      intro l
      rw [List.map_map]
      rfl
    have hp2 : (l1.map scene_index_of).Perm (l2.map scene_index_of) := by
      rw [hsi l1, hsi l2]
      exact hperm.map _
    have hkeyseq :
        ((l1.map scene_index_of).dedup).insertionSort (· ≤ ·)
          = ((l2.map scene_index_of).dedup).insertionSort (· ≤ ·) :=
      List.eq_of_perm_of_sorted
        ((List.perm_insertionSort _ _).trans
          (hp2.dedup.trans (List.perm_insertionSort _ _).symm))
        (group_keys_sorted l1) (group_keys_sorted l2)
    rw [group_map_key_title, group_map_key_title, hkeyseq]

/-- C3 witness: with a text item at index 0 and an image item at index 25,
the partition has buckets 0 and 2, the first bucket holds the text item,
and swapping the two items leaves keys, ordering and titles unchanged. -/
theorem c3_grouping_partition_witness :
    (∃ s ∈ _group_content_by_scene [{ type := "text", order_index := 0 }],
        s.scene_index = scene_index_of { type := "text", order_index := 0 })
    ∧ (_group_content_by_scene
          [{ type := "text", order_index := 0 }, { type := "image", order_index := 25 }]).map
        (fun s => (s.scene_index, s.title))
      = (_group_content_by_scene
          [{ type := "image", order_index := 25 }, { type := "text", order_index := 0 }]).map
        fun s => (s.scene_index, s.title) := by
  constructor
  · exact c3_grouping_partition.2.2.1 [{ type := "text", order_index := 0 }]
      { type := "text", order_index := 0 } (by decide)
  · exact c3_grouping_partition.2.2.2
      [{ type := "text", order_index := 0 }, { type := "image", order_index := 25 }]
      [{ type := "image", order_index := 25 }, { type := "text", order_index := 0 }]
      (by decide)

theorem filterMap_filter_eq {α β : Type} (p : α → Bool) (f : α → Option β)
    (h : ∀ a, p a = false → f a = none) :
    ∀ l : List α, (l.filter p).filterMap f = l.filterMap f := by
  intro l
  induction l with
  | nil => rfl
  | cons a as ih =>
    cases hp : p a with
    | true => simp [List.filter_cons, hp, List.filterMap_cons, ih]
    | false => simp [List.filter_cons, hp, List.filterMap_cons, h a hp, ih]

theorem scene_sections_drop_missing (fe : String → Bool) (settings : Option Settings)
    (s : Scene) :
    scene_sections_of fe settings (existing_images_only fe s)
      = scene_sections_of fe settings s := by
  have himg :
      (((s.image_items.filter fun it =>
          match it.image_path with
          | some p => p ≠ "" && fe p
          | none => false)).filterMap fun item =>
        match item.image_path with
        | some p => if p ≠ "" && fe p then some (_create_image_section item settings) else none
        | none => none)
      = s.image_items.filterMap fun item =>
          match item.image_path with
          | some p => if p ≠ "" && fe p then some (_create_image_section item settings) else none
          | none => none := by
    apply filterMap_filter_eq
    intro a ha
    rcases hip : a.image_path with _ | p
    · simp [hip]
    · rw [hip] at ha
      have ha2 : (decide (p ≠ "") && fe p) = false := ha
      simp [hip]
      intro hp
      simpa [hp] using ha2
  simp only [scene_sections_of, existing_images_only]
  rw [himg]

/-- C8: an image item whose referenced file does not exist (or whose path
is falsy) contributes nothing: deleting all such items from every bucket
leaves the assembled section list unchanged (so no image block and no
error is emitted for them), and the remaining content is still assembled —
in particular every truthy text item's escaped text still appears in the
output. -/
theorem c8_missing_images_skipped :
    (∀ (fe : String → Bool) (settings : Option Settings) (s : Scene),
        scene_sections_of fe settings (existing_images_only fe s)
          = scene_sections_of fe settings s)
    ∧ (∀ (fe : String → Bool) (settings : Option Settings) (items : List ContentItem),
        _build_content_sections fe items settings
          = ((_group_content_by_scene items).map (existing_images_only fe)).flatMap
              (scene_sections_of fe settings))
    ∧ (∀ (fe : String → Bool) (settings : Option Settings) (items : List ContentItem)
        (it : ContentItem) (tx : String),
        it ∈ items → it.type = "text" → it.content_text = some tx → tx ≠ "" →
        _clean_text_for_latex tx ∈ _build_content_sections fe items settings) := by
  refine ⟨scene_sections_drop_missing, ?_, ?_⟩
  · intro fe settings items
    unfold _build_content_sections
    induction _group_content_by_scene items with
    | nil => rfl
    | cons s ss ih =>
      simp only [List.map_cons, List.flatMap_cons, ih]
      rw [scene_sections_drop_missing]
  · intro fe settings items it tx hit htype htext hne
    have hk : scene_index_of it ∈
        ((items.map scene_index_of).dedup).insertionSort (· ≤ ·) :=
      (group_keys_mem items _).mpr (List.mem_map_of_mem _ hit)
    unfold _build_content_sections
    rw [List.mem_flatMap]
    refine ⟨{ scene_index := scene_index_of it
              title := "Scene " ++ toString (scene_index_of it + 1)
              text_items := items.filter fun i =>
                i.type == "text" && scene_index_of i == scene_index_of it
              image_items := items.filter fun i =>
                i.type == "image" && scene_index_of i == scene_index_of it
              audio_items := items.filter fun i =>
                i.type == "audio" && scene_index_of i == scene_index_of it }, ?_, ?_⟩
    · unfold _group_content_by_scene
      exact List.mem_map_of_mem _ hk
    · have htmem : it ∈ items.filter fun i =>
          i.type == "text" && scene_index_of i == scene_index_of it := by
        rw [List.mem_filter]
        exact ⟨hit, by simp [htype]⟩
      have hclean : _clean_text_for_latex tx ∈
          (items.filter fun i =>
            i.type == "text" && scene_index_of i == scene_index_of it).filterMap
            fun item =>
              match item.content_text with
              | some tx2 => if tx2 ≠ "" then some (_clean_text_for_latex tx2) else none
              | none => none := by
        rw [List.mem_filterMap]
        exact ⟨it, htmem, by simp [htext, hne]⟩
      simp only [scene_sections_of]
      rw [if_neg]
      · simp only [List.mem_append]
        left; left; right
        exact hclean
      · simp

/-- C8 witness: the spec's end-to-end scenario — a text item at index 0
saying `Once upon a time & far away` and an image item at index 1 whose
file is missing — assembles to exactly one scene with the escaped text and
no image block. -/
theorem c8_missing_images_skipped_witness :
    _clean_text_for_latex "Once upon a time & far away"
      ∈ _build_content_sections (fun _ => false)
          [{ type := "text", content_text := some "Once upon a time & far away",
             order_index := 0 },
           { type := "image", image_path := some "missing.png", order_index := 1 }] none
    ∧ _build_content_sections (fun _ => false)
          [{ type := "text", content_text := some "Once upon a time & far away",
             order_index := 0 },
           { type := "image", image_path := some "missing.png", order_index := 1 }] none
        = ["\\chapter\x7bScene 1\x7d",
           "\\noindent Once upon a time \\textbackslash\x7b\x7d& far away",
           "\\vspace\x7b1em\x7d"] := by
  constructor
  · exact c8_missing_images_skipped.2.2 (fun _ => false) none
      [{ type := "text", content_text := some "Once upon a time & far away",
         order_index := 0 },
       { type := "image", image_path := some "missing.png", order_index := 1 }]
      { type := "text", content_text := some "Once upon a time & far away",
        order_index := 0 }
      "Once upon a time & far away" (by decide) rfl rfl (by decide)
  · decide

theorem finish_compile_error_ne_no_audio (r : RunResult) (pdf : Bool) (fn : String)
    (dir : List String) :
    (finish_compile r pdf fn dir).error ≠ some "No audio content found in project" := by
  unfold finish_compile
  by_cases hc : (r.returncode == 0 && pdf) = true
  · rw [if_pos hc]; simp
  · rw [if_neg hc]
    intro h
    have h2 : ("LaTeX compilation failed:\n"
        ++ (if r.stderr ≠ "" then r.stderr else r.stdout))
        = "No audio content found in project" := Option.some.inj h
    have h3 : ("LaTeX compilation failed:\n"
        ++ (if r.stderr ≠ "" then r.stderr else r.stdout)).data.head? = some 'L' := rfl
    rw [h2] at h3
    exact absurd h3 (by decide)

theorem compile_error_ne_no_audio (w : CompileWorld) (lc fn : String) (tw : Bool)
    (dir : List String) :
    (compile_pdf w lc fn tw dir).error ≠ some "No audio content found in project" := by
  rcases w with ⟨inst, rn1, rn2, pdf⟩
  cases inst with
  | false => simp [compile_pdf]
  | true =>
    cases rn1 with
    | timeout => simp [compile_pdf]
    | exc m =>
      simp only [compile_pdf]
      intro h
      have h2 : ("PDF generation error: " ++ m) = "No audio content found in project" :=
        Option.some.inj h
      have h3 : ("PDF generation error: " ++ m).data.head? = some 'P' := rfl
      rw [h2] at h3
      exact absurd h3 (by decide)
    | done r1 =>
      simp only [compile_pdf]
      by_cases hc : (tw && (r1.returncode == 0)) = true
      · rw [hc]
        simp only [if_true]
        cases rn2 with
        | timeout => simp
        | exc m =>
          intro h
          have h2 : ("PDF generation error: " ++ m) = "No audio content found in project" :=
            Option.some.inj h
          have h3 : ("PDF generation error: " ++ m).data.head? = some 'P' := rfl
          rw [h2] at h3
          exact absurd h3 (by decide)
        | done r2 => exact finish_compile_error_ne_no_audio r2 pdf fn dir
      · rw [Bool.not_eq_true] at hc
        rw [hc]
        simp only [Bool.false_eq_true, if_false]
        exact finish_compile_error_ne_no_audio r1 pdf fn dir

theorem track_block_filter_sub (i : Nat) (a : ContentItem) :
    (audiobook_track_sections i a).filter (fun l => strStartsWith l "\\subsection*")
      = ["\\subsection*\x7bTrack " ++ toString i ++ "\x7d"] := rfl

theorem track_block_filter_file (i : Nat) (a : ContentItem) :
    (audiobook_track_sections i a).filter (fun l => strStartsWith l "\\textbf\x7bFile:\x7d ")
      = ["\\textbf\x7bFile:\x7d " ++ track_audio_filename i a ++ "\\\\"] := rfl

theorem track_block_filter_duration (i : Nat) (a : ContentItem) :
    (audiobook_track_sections i a).filter
        (fun l => strStartsWith l "\\textbf\x7bDuration:\x7d")
      = ["\\textbf\x7bDuration:\x7d Approximately "
          ++ formatOneDecimal (_estimate_audio_duration_tenths a) ++ " minutes\\\\"] := rfl

theorem header_filter_eq_nil (P : String → Bool)
    (hfront : audiobook_header_front.filter P = [])
    (hback : audiobook_header_back.filter P = [])
    (htitle : ∀ t : String,
      P ("\\title\x7bAudio Companion: " ++ t ++ "\x7d") = false) :
    ∀ proj : Project, (audiobook_header_sections proj).filter P = [] := by
  intro proj
  unfold audiobook_header_sections
  rw [List.filter_append, List.filter_append, hfront, hback,
    List.filter_cons, htitle (_clean_text_for_latex proj.name)]
  rfl

theorem header_filter_sub (proj : Project) :
    (audiobook_header_sections proj).filter (fun l => strStartsWith l "\\subsection*")
      = [] :=
  header_filter_eq_nil _ (by decide) (by decide) (fun t => rfl) proj

theorem header_filter_file (proj : Project) :
    (audiobook_header_sections proj).filter (fun l => strStartsWith l "\\textbf\x7bFile:\x7d ")
      = [] :=
  header_filter_eq_nil _ (by decide) (by decide) (fun t => rfl) proj

theorem header_filter_duration (proj : Project) :
    (audiobook_header_sections proj).filter
        (fun l => strStartsWith l "\\textbf\x7bDuration:\x7d") = [] :=
  header_filter_eq_nil _ (by decide) (by decide) (fun t => rfl) proj

theorem filter_flatMap_blocks (P : String → Bool) (pick : Nat → ContentItem → String)
    (hblock : ∀ i a, (audiobook_track_sections i a).filter P = [pick i a]) :
    ∀ (audio : List ContentItem) (i : Nat),
      ((List.enumFrom i audio).flatMap fun p => audiobook_track_sections p.1 p.2).filter P
        = (List.enumFrom i audio).map fun p => pick p.1 p.2 := by
  intro audio
  induction audio with
  | nil => intro i; rfl
  | cons a rest ih =>
    intro i
    rw [show List.enumFrom i (a :: rest) = (i, a) :: List.enumFrom (i + 1) rest from rfl]
    rw [List.flatMap_cons, List.filter_append, List.map_cons]
    rw [hblock i a, ih (i + 1)]
    rfl

theorem audiobook_filter_generic (P : String → Bool) (pick : Nat → ContentItem → String)
    (hblock : ∀ i a, (audiobook_track_sections i a).filter P = [pick i a])
    (hheader : ∀ proj, (audiobook_header_sections proj).filter P = [])
    (hfooter : List.filter P ["", "\\end\x7bdocument\x7d"] = [])
    (proj : Project) (audio : List ContentItem) :
    (_generate_audiobook_latex_sections proj audio).filter P
      = (List.enumFrom 1 audio).map fun p => pick p.1 p.2 := by
  unfold _generate_audiobook_latex_sections
  rw [List.filter_append, List.filter_append, hheader, hfooter]
  rw [filter_flatMap_blocks P pick hblock audio 1]
  simp

theorem enumFrom_map_fst_fun {β : Type} (g : Nat → β) :
    ∀ (l : List ContentItem) (i : Nat),
      (List.enumFrom i l).map (fun p => g p.1)
        = (List.range l.length).map fun j => g (i + j) := by
  intro l
  induction l with
  | nil => intro i; rfl
  | cons a rest ih =>
    intro i
    rw [show List.enumFrom i (a :: rest) = (i, a) :: List.enumFrom (i + 1) rest from rfl]
    rw [List.map_cons, ih (i + 1),
      show (a :: rest).length = rest.length + 1 from rfl,
      List.range_succ_eq_map, List.map_cons, List.map_map]
    have hmc : (List.range rest.length).map ((fun j => g (i + j)) ∘ Nat.succ)
        = (List.range rest.length).map fun j => g (i + 1 + j) := by
      apply List.map_congr_left
      intro j _
      show g (i + (j + 1)) = g (i + 1 + j)
      congr 1
      omega
    rw [hmc]
    simp

theorem enumFrom_map_snd_fun {β : Type} (h : ContentItem → β) :
    ∀ (l : List ContentItem) (i : Nat),
      (List.enumFrom i l).map (fun p => h p.2) = l.map h := by
  intro l
  induction l with
  | nil => intro i; rfl
  | cons a rest ih =>
    intro i
    rw [show List.enumFrom i (a :: rest) = (i, a) :: List.enumFrom (i + 1) rest from rfl]
    rw [List.map_cons, ih (i + 1), List.map_cons]

/-- C7: `create_audiobook_companion` fails with exactly the error
`"No audio content found in project"` iff the project has zero audio-type
items, and on that failure produces no output and leaves the output
directory unchanged.  The estimated duration of a track with truthy text
is `word_count/150` minutes rounded to one decimal (in tenths: the integer
nearest `word_count/15`), and exactly 1.0 minute (10 tenths) without text.
The generated document lists exactly one `\subsection*{Track i}` per audio
track, numbered 1..n in order, one `File:` line carrying each track's
filename, and one `Duration:` line carrying each track's estimate. -/
theorem c7_audiobook_companion :
    (∀ (w : CompileWorld) (dir : List String) (proj : Project)
        (items : List ContentItem) (fn : String),
        ((create_audiobook_companion w dir (some proj) items fn).error
            = some "No audio content found in project")
          ↔ items.filter (fun it => it.type == "audio") = [])
    ∧ (∀ (w : CompileWorld) (dir : List String) (proj : Project)
        (items : List ContentItem) (fn : String),
        items.filter (fun it => it.type == "audio") = [] →
        create_audiobook_companion w dir (some proj) items fn
          = { output := none, error := some "No audio content found in project",
              outputDirFiles := dir, tempDirRemoved := true })
    ∧ (∀ (item : ContentItem) (s : String), item.content_text = some s → s ≠ "" →
        (_estimate_audio_duration_tenths item : ℤ) = round ((word_count s : ℚ) / 15))
    ∧ (∀ item : ContentItem,
        item.content_text = none ∨ item.content_text = some "" →
        _estimate_audio_duration_tenths item = 10)
    ∧ (∀ (proj : Project) (audio : List ContentItem),
        (_generate_audiobook_latex_sections proj audio).filter
            (fun l => strStartsWith l "\\subsection*")
          = (List.range audio.length).map
              fun j => "\\subsection*\x7bTrack " ++ toString (j + 1) ++ "\x7d")
    ∧ (∀ (proj : Project) (audio : List ContentItem),
        (_generate_audiobook_latex_sections proj audio).filter
            (fun l => strStartsWith l "\\textbf\x7bFile:\x7d ")
          = (List.enumFrom 1 audio).map
              fun p => "\\textbf\x7bFile:\x7d " ++ track_audio_filename p.1 p.2 ++ "\\\\")
    ∧ (∀ (proj : Project) (audio : List ContentItem),
        (_generate_audiobook_latex_sections proj audio).filter
            (fun l => strStartsWith l "\\textbf\x7bDuration:\x7d")
          = audio.map fun a =>
              "\\textbf\x7bDuration:\x7d Approximately "
                ++ formatOneDecimal (_estimate_audio_duration_tenths a)
                ++ " minutes\\\\") := by
  refine ⟨?_, ?_, ?_, ?_, ?_, ?_, ?_⟩
  · intro w dir proj items fn
    constructor
    · intro h
      by_cases ha : (items.filter fun it => it.type == "audio").isEmpty = true
      · exact List.isEmpty_iff.mp ha
      · exfalso
        simp only [create_audiobook_companion] at h
        rw [if_neg ha] at h
        exact compile_error_ne_no_audio _ _ _ _ _ h
    · intro h
      simp only [create_audiobook_companion]
      rw [if_pos (by rw [h]; rfl)]
  · intro w dir proj items fn h
    simp only [create_audiobook_companion]
    rw [if_pos (by rw [h]; rfl)]
  · intro item s hs hne
    simp only [_estimate_audio_duration_tenths, hs]
    rw [if_pos hne, round_eq]
    have harith : (word_count s : ℚ) / 15 + 1 / 2
        = ((2 * word_count s + 15 : ℕ) : ℚ) / ((30 : ℕ) : ℚ) := by
      push_cast
      ring
    rw [harith]
    have h0 : (0 : ℚ) ≤ ((2 * word_count s + 15 : ℕ) : ℚ) / ((30 : ℕ) : ℚ) := by positivity
    rw [← Int.natCast_floor_eq_floor h0, Nat.floor_div_eq_div]
  · intro item h
    rcases h with h | h <;> simp [_estimate_audio_duration_tenths, h]
  · intro proj audio
    rw [audiobook_filter_generic _
      (fun i _ => "\\subsection*\x7bTrack " ++ toString i ++ "\x7d")
      track_block_filter_sub header_filter_sub (by decide) proj audio]
    rw [enumFrom_map_fst_fun
      (fun i => "\\subsection*\x7bTrack " ++ toString i ++ "\x7d") audio 1]
    apply List.map_congr_left
    intro j _
    show "\\subsection*\x7bTrack " ++ toString (1 + j) ++ "\x7d" = _
    rw [Nat.add_comm]
  · intro proj audio
    exact audiobook_filter_generic _
      (fun i a => "\\textbf\x7bFile:\x7d " ++ track_audio_filename i a ++ "\\\\")
      track_block_filter_file header_filter_file (by decide) proj audio
  · intro proj audio
    rw [audiobook_filter_generic _
      (fun _ a => "\\textbf\x7bDuration:\x7d Approximately "
        ++ formatOneDecimal (_estimate_audio_duration_tenths a) ++ " minutes\\\\")
      track_block_filter_duration header_filter_duration (by decide) proj audio]
    exact enumFrom_map_snd_fun
      (fun a => "\\textbf\x7bDuration:\x7d Approximately "
        ++ formatOneDecimal (_estimate_audio_duration_tenths a) ++ " minutes\\\\") audio 1

/-- C7 witness: a project with zero audio items yields exactly the
no-audio error; a one-track project's document carries exactly one
subsection `Track 1`; the three-word example's duration is the rounding of
`3/15`. -/
theorem c7_audiobook_companion_witness :
    (create_audiobook_companion
        { latexInstalled := true, run1 := .timeout, run2 := .timeout, pdfProduced := false }
        [] (some { id := "p", name := "N" }) [] "out").error
        = some "No audio content found in project"
    ∧ (_generate_audiobook_latex_sections { id := "p", name := "N" }
          [{ type := "audio", content_text := some "one two three",
             audio_path := some "a/b.mp3" }]).filter
          (fun l => strStartsWith l "\\subsection*")
        = (List.range 1).map (fun j => "\\subsection*\x7bTrack " ++ toString (j + 1) ++ "\x7d")
    ∧ (_estimate_audio_duration_tenths
          { type := "audio", content_text := some "one two three" } : ℤ)
        = round ((word_count "one two three" : ℚ) / 15) := by
  refine ⟨?_, ?_, ?_⟩
  · exact (c7_audiobook_companion.1 _ [] _ [] "out").mpr rfl
  · exact c7_audiobook_companion.2.2.2.2.1 _ _
  · exact c7_audiobook_companion.2.2.1 _ "one two three" rfl (by decide)

end StoryWeaver
